import Mathlib

/-!
Verification development for the Rev AI Python SDK clients
(`language_identification_client.py`, exercised by
`test_sentiment_analysis_client.py`).

The concrete client code under `src/` is embedded directly.  The shared
`GenericApiClient` / `BaseClient` layer and the sentiment models are part
of the repository but their files are not present under `src/`; those
definitions are modelled from the specification and are marked by a doc
comment starting with `Modelled from the spec:`.
-/

namespace RevAi

/-- A JSON value, as produced by Python's `json` module.  Numbers are
modelled as integers (all numeric values appearing in the clients and
tests are integers). -/
inductive Json where
  | null : Json
  | bool : Bool → Json
  | num : Int → Json
  | str : String → Json
  | arr : List Json → Json
  | obj : List (String × Json) → Json
  deriving Repr

/-- First-match lookup of a key in a JSON object's field list (Python
dicts have unique keys, so first-match agrees with dict lookup). -/
def jlookup (k : String) : List (String × Json) → Option Json
  | [] => none
  | (k', v) :: rest => if k' = k then some v else jlookup k rest

/-- Errors raised by the SDK before any network call:
`ValueError` (the spec's `InvalidArgument`) with its message, and
`FileNotFoundError` (the spec's `FileNotFound`) with the offending path. -/
inductive SdkError where
  | invalidArgument : String → SdkError
  | fileNotFound : String → SdkError
  deriving Repr, DecidableEq

/-- Content of one part of a multipart request: either binary file bytes
or plain text (Python tuples `(filename, f)` / `(None, text)`). -/
inductive PartContent where
  | fileBytes : List Nat → PartContent
  | text : String → PartContent
  deriving Repr, DecidableEq

/-- One multipart part: field name, optional filename, content. -/
structure Part where
  name : String
  filename : Option String
  content : PartContent
  deriving Repr, DecidableEq

/-- An HTTP request as handed to the transport layer
(`request(method, url, headers=..., json=..., files=...)`).  The
builders assemble method, url, body and parts; the headers are attached
by the dispatch step (`_make_http_request`), so they default to `[]`
until a request is dispatched. -/
structure HttpRequest where
  method : String
  url : String
  headers : List (String × String) := []
  jsonBody : Option Json := none
  files : List Part := []
  deriving Repr

/-- Python truthiness test for an optional string argument:
`not x` holds for `None` and for the empty string. -/
def strFalsy : Option String → Bool
  | none => true
  | some s => s = ""

/-- Modelled from the spec: `GenericApiClient._enhance_payload` (file
`generic_api_client.py` is not under `src/`).  The caller-supplied
payload is merged with the optional top-level fields `metadata`,
`callback_url` and `delete_after_seconds`, each included only when
provided (present-including-falsy semantics: an explicit presence
marker, so `delete_after_seconds = 0` is still included). -/
def enhance_payload (payload : List (String × Json))
    (metadata : Option String) (callback_url : Option String)
    (delete_after_seconds : Option Int) : List (String × Json) :=
  payload
    ++ (match metadata with
        | none => []
        | some m => [("metadata", Json.str m)])
    ++ (match callback_url with
        | none => []
        | some c => [("callback_url", Json.str c)])
    ++ (match delete_after_seconds with
        | none => []
        | some d => [("delete_after_seconds", Json.num d)])

/-- The per-client configuration fixed at construction time. -/
structure ClientConfig where
  base_url : String
  default_headers : List (String × String)
  deriving Repr, DecidableEq

/-- First-match lookup of a header value. -/
def hlookup (k : String) : List (String × String) → Option String
  | [] => none
  | (k', v) :: rest => if k' = k then some v else hlookup k rest

/-- Modelled from the spec: the `GenericApiClient` / `BaseClient`
constructor (files not under `src/`).  Requires a non-empty access
token, otherwise fails with `ValueError` naming `access_token`; computes
`base_url = https://api.rev.ai/<api_name>/<api_version>/` and the fixed
header set `User-Agent: RevAi-PythonSDK/<version>` and
`Authorization: Bearer <token>`. -/
def make_client (access_token : Option String)
    (api_name api_version sdk_version : String) :
    Except SdkError ClientConfig :=
  if strFalsy access_token then
    .error (.invalidArgument "access_token must be provided")
  else
    .ok { base_url :=
            "https://api.rev.ai/" ++ api_name ++ "/" ++ api_version ++ "/",
          default_headers :=
            [("User-Agent", "RevAi-PythonSDK/" ++ sdk_version),
             ("Authorization", "Bearer " ++ access_token.getD "")] }

/-- From `language_identification_client.py`: the fixed api version. -/
def lang_api_version : String := "v1"

/-- From `language_identification_client.py`: the fixed api name. -/
def lang_api_name : String := "languageid"

/-- JSON string escaping as done by Python's `json.dumps` for the
characters relevant here (quote and backslash; other printable ASCII
characters pass through unchanged). -/
def jsonEscapeChar (c : Char) : String :=
  if c = '"' then "\\\"" else if c = '\\' then "\\\\" else String.singleton c

/-- A JSON string literal: surrounding quotes plus escaped content. -/
def jsonEscape (s : String) : String :=
  "\"" ++ String.join (s.toList.map jsonEscapeChar) ++ "\""

/-- Insertion step of the by-key insertion sort used to model
`json.dumps(payload, sort_keys=True)`. -/
def insertPair (p : String × String) :
    List (String × String) → List (String × String)
  | [] => [p]
  | q :: rest => if p.1 ≤ q.1 then p :: q :: rest else q :: insertPair p rest

/-- Insertion sort of rendered object fields by key, modelling the
alphabetical key order `json.dumps(..., sort_keys=True)` emits. -/
def sortPairs : List (String × String) → List (String × String)
  | [] => []
  | p :: rest => insertPair p (sortPairs rest)

/-- Python's `json.dumps(value, sort_keys=True)`: default separators
`", "` and `": "`, object keys emitted in sorted order. -/
def jsonDumps : Json → String
  | .null => "null"
  | .bool true => "true"
  | .bool false => "false"
  | .num n => toString n
  | .str s => jsonEscape s
  | .arr xs =>
      "[" ++ String.intercalate ", "
        (xs.attach.map fun x => jsonDumps x.1) ++ "]"
  | .obj kvs =>
      "\x7b" ++ String.intercalate ", "
        ((sortPairs (kvs.attach.map fun p => (p.1.1, jsonDumps p.1.2))).map
          fun q => jsonEscape q.1 ++ ": " ++ q.2) ++ "\x7d"
decreasing_by
  · have h := List.sizeOf_lt_of_mem x.2
    simp_wf
    omega
  · have h := List.sizeOf_lt_of_mem p.2
    obtain ⟨⟨k, v⟩, hp⟩ := p
    simp at h
    simp_wf
    omega

/-- Modelled from the spec: `GenericApiClient`'s query string building
(file not under `src/`): `key=value` pairs joined with `&`. -/
def build_query (params : List (String × String)) : String :=
  String.intercalate "&" (params.map fun p => p.1 ++ "=" ++ p.2)

/-- Modelled from the spec: the result URL
`{base_url}jobs/{id}/result?{query}` — the `?` is always present, even
when the query-parameter mapping is empty. -/
def get_result_url (base_url id : String)
    (params : List (String × String)) : String :=
  base_url ++ "jobs/" ++ id ++ "/result?" ++ build_query params

/-- The GET request issued by `GenericApiClient._get_result_json` /
`_get_result_object`. -/
def get_result_request (base_url id : String)
    (params : List (String × String)) : HttpRequest :=
  { method := "GET", url := get_result_url base_url id params }

/-- Modelled from the spec: `GenericApiClient._get_result_json` (file
not under `src/`): issue the GET and return the decoded JSON body
unchanged.  The transport is a function from requests to decoded
response bodies. -/
def get_result_json_generic (base_url id : String)
    (params : List (String × String)) (http : HttpRequest → Json) : Json :=
  http (get_result_request base_url id params)

/-- Modelled from the spec: `GenericApiClient._get_result_object` (file
not under `src/`): the same request, with the body passed through the
result deserializer. -/
def get_result_object_generic {α : Type} (base_url id : String)
    (params : List (String × String)) (deser : Json → Option α)
    (http : HttpRequest → Json) : Option α :=
  deser (http (get_result_request base_url id params))

/-- Modelled from the spec: the `SentimentValue` wire enum of the
sentiment models (file not under `src/`). -/
inductive SentimentValue where
  | positive
  | negative
  | neutral
  deriving Repr, DecidableEq

/-- Wire-format string of a sentiment value. -/
def SentimentValue.value : SentimentValue → String
  | .positive => "positive"
  | .negative => "negative"
  | .neutral => "neutral"

/-- Wire string to enum; unknown strings are rejected. -/
def sentiment_from_string (s : String) : Option SentimentValue :=
  if s = "positive" then some .positive
  else if s = "negative" then some .negative
  else if s = "neutral" then some .neutral
  else none

/-- Python dict assignment `d[k] = v`: overwrite the existing entry in
place, or append a new one. -/
def dict_set (k v : String) :
    List (String × String) → List (String × String)
  | [] => [(k, v)]
  | (k', v') :: rest =>
      if k' = k then (k, v) :: rest else (k', v') :: dict_set k v rest

/-- Modelled from the spec: the sentiment client's translation of its
filter argument into query parameters (file not under `src/`).  The
provided collection of filter values is iterated and each is assigned
in turn to the single key `filter_for`, so the last one iterated wins;
an empty collection (no filter) yields no parameters.  A single filter
value is the singleton collection. -/
def create_filter_params (sentiments : List SentimentValue) :
    List (String × String) :=
  sentiments.foldl (fun params s => dict_set "filter_for" s.value params) []

/-- Modelled from the spec: the sentiment client's `get_result_json` /
`get_result_object` request with an optional filter. -/
def sa_get_result_request (base_url id : String)
    (sentiments : List SentimentValue) : HttpRequest :=
  get_result_request base_url id (create_filter_params sentiments)

/-- From `language_identification_client.py`, `submit_job_url`: validate
`media_url`, build the payload via `_enhance_payload` with `media_url`
as the caller-supplied field, and POST it as JSON to `{base_url}jobs`
(`urljoin` on a base ending in `/` and the relative path `jobs`
concatenates them). -/
def submit_job_url (base_url : String) (media_url : Option String)
    (metadata callback_url : Option String)
    (delete_after_seconds : Option Int) : Except SdkError HttpRequest :=
  if strFalsy media_url then
    .error (.invalidArgument "media_url must be provided")
  else
    .ok { method := "POST", url := base_url ++ "jobs",
          jsonBody := some (.obj (enhance_payload
            [("media_url", .str (media_url.getD ""))]
            metadata callback_url delete_after_seconds)) }

/-- From `language_identification_client.py`, `submit_job_local_file`:
validate `filename`, build the payload via `_enhance_payload` over an
empty base payload, open the file (raising `FileNotFoundError` when the
path names no existing file, before any request is made), and POST a
multipart request to `{base_url}jobs` with the part `media` carrying
the file bytes under the caller's filename and the part `options`
carrying `json.dumps(payload, sort_keys=True)`.  The file system is a
map from paths to the byte contents of existing files. -/
def submit_job_local_file (fs : String → Option (List Nat))
    (base_url : String) (filename : Option String)
    (metadata callback_url : Option String)
    (delete_after_seconds : Option Int) : Except SdkError HttpRequest :=
  if strFalsy filename then
    .error (.invalidArgument "filename must be provided")
  else
    let fname := filename.getD ""
    let payload := enhance_payload [] metadata callback_url delete_after_seconds
    match fs fname with
    | none => .error (.fileNotFound fname)
    | some content =>
        .ok { method := "POST", url := base_url ++ "jobs",
              files := [⟨"media", some fname, .fileBytes content⟩,
                        ⟨"options", none, .text (jsonDumps (.obj payload))⟩] }

/-- From `language_identification_client.py`, `get_result_json`:
delegates to the generic client with an empty query-parameter mapping. -/
def lang_get_result_json (base_url id : String)
    (http : HttpRequest → Json) : Json :=
  get_result_json_generic base_url id [] http

/-- From `language_identification_client.py`, `get_result_object`:
delegates to the generic client with an empty query-parameter mapping
and the language-identification result deserializer (kept abstract). -/
def lang_get_result_object {α : Type} (base_url id : String)
    (deser : Json → Option α) (http : HttpRequest → Json) : Option α :=
  get_result_object_generic base_url id [] deser http

/-- Modelled from the spec: `SentimentMessage` of the sentiment models
(file not under `src/`): content, score, sentiment, offset, length. -/
structure SentimentMessage where
  content : String
  score : Int
  sentiment : SentimentValue
  offset : Int
  length : Int
  deriving Repr, DecidableEq

/-- Modelled from the spec: `SentimentAnalysisResult`, a list of
sentiment messages. -/
structure SentimentAnalysisResult where
  messages : List SentimentMessage
  deriving Repr, DecidableEq

/-- Projection of a JSON string value. -/
def Json.asStr : Json → Option String
  | .str s => some s
  | _ => none

/-- Projection of a JSON number value. -/
def Json.asNum : Json → Option Int
  | .num n => some n
  | _ => none

/-- Modelled from the spec: `SentimentMessage.from_json` — each field is
read from the correspondingly named JSON field, with the wire sentiment
string mapped to the enum (unknown values rejected). -/
def sentimentMessage_from_json : Json → Option SentimentMessage
  | .obj kvs => do
      let content ← (jlookup "content" kvs).bind Json.asStr
      let score ← (jlookup "score" kvs).bind Json.asNum
      let sentimentStr ← (jlookup "sentiment" kvs).bind Json.asStr
      let sentiment ← sentiment_from_string sentimentStr
      let offset ← (jlookup "offset" kvs).bind Json.asNum
      let length ← (jlookup "length" kvs).bind Json.asNum
      some ⟨content, score, sentiment, offset, length⟩
  | _ => none

/-- Modelled from the spec: `SentimentAnalysisResult.from_json` — the
`messages` array deserialized element-wise. -/
def sentimentResult_from_json : Json → Option SentimentAnalysisResult
  | .obj kvs =>
      match jlookup "messages" kvs with
      | some (.arr ms) =>
          (ms.mapM sentimentMessage_from_json).map SentimentAnalysisResult.mk
      | _ => none
  | _ => none

/-- Modelled from the spec: the sentiment client's `get_result_object`
with an optional filter: the filtered request, deserialized. -/
def sa_get_result_object (base_url id : String)
    (sentiments : List SentimentValue) (http : HttpRequest → Json) :
    Option SentimentAnalysisResult :=
  get_result_object_generic base_url id (create_filter_params sentiments)
    sentimentResult_from_json http

/-- Modelled from the spec: `BaseClient._make_http_request` (file not
under `src/`): every request is dispatched with the client's default
headers attached (`headers=self.default_headers`, asserted by every
mocked request in the tests); nothing else about the request changes,
and the headers are read from the construction-time configuration on
every call, never mutated. -/
def make_http_request (cfg : ClientConfig) (r : HttpRequest) : HttpRequest :=
  { r with headers := cfg.default_headers }

/-- The GET request a constructed client dispatches for a result
retrieval: the generic result request with the client's default
headers attached. -/
def client_get_result_request (cfg : ClientConfig) (id : String)
    (params : List (String × String)) : HttpRequest :=
  make_http_request cfg (get_result_request cfg.base_url id params)

/-- URL submission as dispatched by a constructed client: the built
request with the client's default headers attached. -/
def client_submit_job_url (cfg : ClientConfig) (media_url : Option String)
    (metadata callback_url : Option String)
    (delete_after_seconds : Option Int) : Except SdkError HttpRequest :=
  (submit_job_url cfg.base_url media_url metadata callback_url
    delete_after_seconds).map (make_http_request cfg)

/-- Local-file submission as dispatched by a constructed client: the
built multipart request with the client's default headers attached. -/
def client_submit_job_local_file (fs : String → Option (List Nat))
    (cfg : ClientConfig) (filename : Option String)
    (metadata callback_url : Option String)
    (delete_after_seconds : Option Int) : Except SdkError HttpRequest :=
  (submit_job_local_file fs cfg.base_url filename metadata callback_url
    delete_after_seconds).map (make_http_request cfg)

/-! ## Helper lemmas -/

theorem jlookup_append (k : String) (a b : List (String × Json)) :
    jlookup k (a ++ b) =
      (match jlookup k a with
       | some v => some v
       | none => jlookup k b) := by
  induction a with
  | nil => rfl
  | cons q rest ih =>
      obtain ⟨k', v'⟩ := q
      by_cases hk : k' = k
      · simp [jlookup, hk]
      · simp [jlookup, hk, ih]

theorem get_result_url_nil (base id : String) :
    get_result_url base id [] = base ++ "jobs/" ++ id ++ "/result?" := by
  unfold get_result_url build_query
  rw [show (([] : List (String × String)).map fun p => p.1 ++ "=" ++ p.2)
        = ([] : List String) from rfl]
  rw [show String.intercalate "&" ([] : List String) = "" from rfl]
  exact String.append_empty _

theorem dict_set_filter_singleton (v w : String) :
    dict_set "filter_for" v [("filter_for", w)] = [("filter_for", v)] := by
  simp [dict_set]

theorem foldl_dict_set_last (ss : List SentimentValue) (v : String) :
    ss.foldl (fun params s => dict_set "filter_for" s.value params)
        [("filter_for", v)]
      = [("filter_for", (ss.map SentimentValue.value).getLastD v)] := by
  induction ss generalizing v with
  | nil => rfl
  | cons s rest ih =>
      simp only [List.foldl_cons, List.map_cons, List.getLastD_cons]
      rw [dict_set_filter_singleton, ih]

theorem getLastD_map_value (l : List SentimentValue) (s : SentimentValue) :
    (l.map SentimentValue.value).getLastD s.value = (l.getLastD s).value := by
  induction l generalizing s with
  | nil => rfl
  | cons a rest ih =>
      simp only [List.map_cons, List.getLastD_cons]
      exact ih a

theorem mem_insertPair (p b : String × String) (l : List (String × String))
    (h : b ∈ insertPair p l) : b = p ∨ b ∈ l := by
  induction l with
  | nil =>
      simp [insertPair] at h
      exact Or.inl h
  | cons q rest ih =>
      rw [insertPair] at h
      by_cases hpq : p.1 ≤ q.1
      · rw [if_pos hpq] at h
        rcases List.mem_cons.mp h with h1 | h2
        · exact Or.inl h1
        · exact Or.inr h2
      · rw [if_neg hpq] at h
        rcases List.mem_cons.mp h with h1 | h2
        · exact Or.inr (List.mem_cons.mpr (Or.inl h1))
        · rcases ih h2 with h3 | h4
          · exact Or.inl h3
          · exact Or.inr (List.mem_cons.mpr (Or.inr h4))

theorem sorted_insertPair (p : String × String) (l : List (String × String))
    (h : List.Sorted (fun a b : String × String => a.1 ≤ b.1) l) :
    List.Sorted (fun a b : String × String => a.1 ≤ b.1) (insertPair p l) := by
  induction l with
  | nil => simp [insertPair]
  | cons q rest ih =>
      rw [List.sorted_cons] at h
      obtain ⟨hq, hrest⟩ := h
      by_cases hpq : p.1 ≤ q.1
      · rw [insertPair, if_pos hpq, List.sorted_cons]
        refine ⟨?_, List.sorted_cons.mpr ⟨hq, hrest⟩⟩
        intro b hb
        rcases List.mem_cons.mp hb with h1 | h2
        · exact h1 ▸ hpq
        · exact le_trans hpq (hq b h2)
      · rw [insertPair, if_neg hpq, List.sorted_cons]
        refine ⟨?_, ih hrest⟩
        intro b hb
        rcases mem_insertPair p b rest hb with h1 | h2
        · exact h1 ▸ le_of_not_le hpq
        · exact hq b h2

theorem sorted_sortPairs (l : List (String × String)) :
    List.Sorted (fun a b : String × String => a.1 ≤ b.1) (sortPairs l) := by
  induction l with
  | nil => simp [sortPairs]
  | cons p rest ih => exact sorted_insertPair p _ ih

theorem headers_of_map_make (cfg : ClientConfig)
    (x : Except SdkError HttpRequest) (r : HttpRequest)
    (h : x.map (make_http_request cfg) = .ok r) :
    r.headers = cfg.default_headers := by
  cases x with
  | error e => simp [Except.map] at h
  | ok r0 =>
      simp [Except.map] at h
      subst h
      rfl

/-! ## Claim theorems -/

/-- Claim C3: for every job id and query-parameter mapping, the generic
result retrieval issues a GET to `{base_url}jobs/{id}/result` followed
by a query string of `key=value` pairs joined with `&`, always preceded
by `?` (an empty mapping yields a URL ending in `result?`), and returns
the decoded JSON response body unchanged, not wrapped in a domain
object. -/
theorem claim_C3_get_result_json (base id : String)
    (params : List (String × String)) (http : HttpRequest → Json) :
    (get_result_request base id params).method = "GET" ∧
    (get_result_request base id params).url =
      base ++ "jobs/" ++ id ++ "/result?" ++
        String.intercalate "&" (params.map fun p => p.1 ++ "=" ++ p.2) ∧
    (get_result_request base id []).url = base ++ "jobs/" ++ id ++ "/result?" ∧
    get_result_json_generic base id params http =
      http (get_result_request base id params) :=
  ⟨rfl, rfl, get_result_url_nil base id, rfl⟩

/-- Claim C5: constructing a client with a non-empty token yields default
headers whose `Authorization` is exactly `"Bearer " ++ token` and whose
`User-Agent` identifies the SDK and version, plus a base url
`https://api.rev.ai/<api_name>/<api_version>/`; these
construction-time headers are attached verbatim to every dispatched
request — result retrievals and both submission entry points — and are
never altered: every dispatched request carries exactly
`cfg.default_headers`. -/
theorem claim_C5_constructor (T n ver v : String) (hT : T ≠ "") :
    ∃ cfg, make_client (some T) n ver v = .ok cfg ∧
      hlookup "Authorization" cfg.default_headers = some ("Bearer " ++ T) ∧
      hlookup "User-Agent" cfg.default_headers =
        some ("RevAi-PythonSDK/" ++ v) ∧
      cfg.base_url = "https://api.rev.ai/" ++ n ++ "/" ++ ver ++ "/" ∧
      (∀ id params, client_get_result_request cfg id params =
        { get_result_request cfg.base_url id params with
            headers := cfg.default_headers }) ∧
      (∀ a m c d r, client_submit_job_url cfg a m c d = .ok r →
        r.headers = cfg.default_headers) ∧
      (∀ fs f m c d r,
        client_submit_job_local_file fs cfg f m c d = .ok r →
        r.headers = cfg.default_headers) := by
  refine ⟨{ base_url := "https://api.rev.ai/" ++ n ++ "/" ++ ver ++ "/",
            default_headers := [("User-Agent", "RevAi-PythonSDK/" ++ v),
                                ("Authorization", "Bearer " ++ T)] },
          ?_, rfl, rfl, rfl, fun id params => rfl, ?_, ?_⟩
  · simp [make_client, strFalsy, hT]
  · intro a m c d r h
    exact headers_of_map_make _ _ r h
  · intro fs f m c d r h
    exact headers_of_map_make _ _ r h

/-- Witness for claim C5 at the test's token, with the sentiment
client's api name and version (base url
`https://api.rev.ai/sentiment_analysis/v1/`): the headers read back
exactly, and every dispatched request carries them. -/
theorem claim_C5_witness :
    ∃ cfg, make_client (some "token") "sentiment_analysis" "v1" "2.0.0"
        = .ok cfg ∧
      hlookup "Authorization" cfg.default_headers = some "Bearer token" ∧
      hlookup "User-Agent" cfg.default_headers =
        some "RevAi-PythonSDK/2.0.0" ∧
      cfg.base_url = "https://api.rev.ai/sentiment_analysis/v1/" ∧
      (∀ id params, client_get_result_request cfg id params =
        { get_result_request cfg.base_url id params with
            headers := cfg.default_headers }) ∧
      (∀ a m c d r, client_submit_job_url cfg a m c d = .ok r →
        r.headers = cfg.default_headers) ∧
      (∀ fs f m c d r,
        client_submit_job_local_file fs cfg f m c d = .ok r →
        r.headers = cfg.default_headers) :=
  claim_C5_constructor "token" "sentiment_analysis" "v1" "2.0.0" (by decide)

/-- Claim C6: construction with an absent (`None`) or empty access token
fails with the `InvalidArgument` error message
`access_token must be provided`, and no client is created. -/
theorem claim_C6_no_token (t : Option String) (n ver v : String)
    (h : strFalsy t = true) :
    make_client t n ver v =
      .error (.invalidArgument "access_token must be provided") := by
  simp [make_client, h]

/-- Witness for claim C6 at both failing inputs, `None` and `""`. -/
theorem claim_C6_witness :
    make_client none "sentiment_analysis" "v1" "2.0.0"
        = .error (.invalidArgument "access_token must be provided") ∧
    make_client (some "") "sentiment_analysis" "v1" "2.0.0"
        = .error (.invalidArgument "access_token must be provided") :=
  ⟨claim_C6_no_token none "sentiment_analysis" "v1" "2.0.0" rfl,
   claim_C6_no_token (some "") "sentiment_analysis" "v1" "2.0.0" rfl⟩

/-- Claim C7: each submission entry point rejects a missing or empty
required argument with an `InvalidArgument` error naming that argument
(`media_url` for URL submission, `filename` for local-file submission),
before any request is produced. -/
theorem claim_C7_required_args (base : String) (a : Option String)
    (fs : String → Option (List Nat)) (m c : Option String)
    (d : Option Int) (h : strFalsy a = true) :
    submit_job_url base a m c d =
      .error (.invalidArgument "media_url must be provided") ∧
    submit_job_local_file fs base a m c d =
      .error (.invalidArgument "filename must be provided") := by
  constructor <;> simp [submit_job_url, submit_job_local_file, h]

/-- Witness for claim C7 at the failing inputs `None` and `""`. -/
theorem claim_C7_witness :
    (submit_job_url "B/" none (some "t") none (some 0) =
      .error (.invalidArgument "media_url must be provided") ∧
     submit_job_local_file (fun _ => none) "B/" none (some "t") none (some 0) =
      .error (.invalidArgument "filename must be provided")) ∧
    (submit_job_url "B/" (some "") none none none =
      .error (.invalidArgument "media_url must be provided") ∧
     submit_job_local_file (fun _ => none) "B/" (some "") none none none =
      .error (.invalidArgument "filename must be provided")) :=
  ⟨claim_C7_required_args "B/" none (fun _ => none) (some "t") none (some 0) rfl,
   claim_C7_required_args "B/" (some "") (fun _ => none) none none none rfl⟩

/-- Claim C8: local-file submission with a non-empty path that names no
existing file fails with `FileNotFound` and no request is ever
produced (the open happens before the request is made). -/
theorem claim_C8_file_not_found (fs : String → Option (List Nat))
    (base fname : String) (m c : Option String) (d : Option Int)
    (hne : fname ≠ "") (hmiss : fs fname = none) :
    submit_job_local_file fs base (some fname) m c d =
      .error (.fileNotFound fname) ∧
    ∀ r : HttpRequest,
      submit_job_local_file fs base (some fname) m c d ≠ .ok r := by
  have h1 : submit_job_local_file fs base (some fname) m c d =
      .error (.fileNotFound fname) := by
    simp [submit_job_local_file, strFalsy, hne, hmiss]
  exact ⟨h1, fun r hr => Except.noConfusion (h1 ▸ hr)⟩

/-- Witness for claim C8: an empty file system and the path
`missing.mp3`. -/
theorem claim_C8_witness :
    submit_job_local_file (fun _ => none) "B/" (some "missing.mp3")
        (some "t") none (some 0) =
      .error (.fileNotFound "missing.mp3") ∧
    ∀ r : HttpRequest,
      submit_job_local_file (fun _ => none) "B/" (some "missing.mp3")
        (some "t") none (some 0) ≠ .ok r :=
  claim_C8_file_not_found (fun _ => none) "B/" "missing.mp3"
    (some "t") none (some 0) (by decide) rfl

/-- Claim C10: the language identification client's result retrievals
take no filter argument and pass an empty query-parameter mapping to
the generic client, so every language-identification result request is
unfiltered and its URL ends in `result?` with no parameters. -/
theorem claim_C10_lang_unfiltered {α : Type} (base id : String)
    (deser : Json → Option α) (http : HttpRequest → Json) :
    lang_get_result_json base id http = http (get_result_request base id []) ∧
    lang_get_result_object base id deser http =
      deser (http (get_result_request base id [])) ∧
    (get_result_request base id []).url = base ++ "jobs/" ++ id ++ "/result?" :=
  ⟨rfl, rfl, get_result_url_nil base id⟩

/-- Claim C1: in every submission payload, each of the optional fields
`metadata`, `callback_url` and `delete_after_seconds` is absent from the
request body when the caller does not provide it and present with
exactly the caller's value when provided — including the falsy value
`0` for `delete_after_seconds`. -/
theorem claim_C1_optional_fields (p : List (String × Json))
    (m c : Option String) (d : Option Int)
    (hm : jlookup "metadata" p = none)
    (hc : jlookup "callback_url" p = none)
    (hd : jlookup "delete_after_seconds" p = none) :
    jlookup "metadata" (enhance_payload p m c d) = Option.map Json.str m ∧
    jlookup "callback_url" (enhance_payload p m c d) = Option.map Json.str c ∧
    jlookup "delete_after_seconds" (enhance_payload p m c d) =
      Option.map Json.num d ∧
    jlookup "delete_after_seconds" (enhance_payload p m c (some 0)) =
      some (Json.num 0) := by
  cases m <;> cases c <;> cases d <;>
    simp_all [enhance_payload, jlookup_append, jlookup]

/-- Witness for claim C1 at the payload of the test
`test_submit_job_text_with_success`: metadata and callback provided,
`delete_after_seconds = 0` still present in the body. -/
theorem claim_C1_witness :
    jlookup "metadata"
        (enhance_payload [("media_url", Json.str "http://x/a.mp3")]
          (some "test") (some "https://example.com/") (some 0)) =
      some (Json.str "test") ∧
    jlookup "callback_url"
        (enhance_payload [("media_url", Json.str "http://x/a.mp3")]
          (some "test") (some "https://example.com/") (some 0)) =
      some (Json.str "https://example.com/") ∧
    jlookup "delete_after_seconds"
        (enhance_payload [("media_url", Json.str "http://x/a.mp3")]
          (some "test") (some "https://example.com/") (some 0)) =
      some (Json.num 0) ∧
    jlookup "delete_after_seconds"
        (enhance_payload [("media_url", Json.str "http://x/a.mp3")]
          (some "test") (some "https://example.com/") (some 0)) =
      some (Json.num 0) :=
  claim_C1_optional_fields [("media_url", Json.str "http://x/a.mp3")]
    (some "test") (some "https://example.com/") (some 0) rfl rfl rfl

/-- Claim C2: the sentiment client translates its filter into the single
query parameter `filter_for` carrying the filter's wire-format string;
when a collection of filter values is passed, the last one iterated
wins; with no filter the parameter is omitted and the URL ends in
`result?`. -/
theorem claim_C2_filter_for (base id : String) (ss : List SentimentValue) :
    create_filter_params ss =
      (match ss with
       | [] => []
       | s :: rest => [("filter_for", (rest.getLastD s).value)]) ∧
    (sa_get_result_request base id ss).url =
      (match ss with
       | [] => base ++ "jobs/" ++ id ++ "/result?"
       | s :: rest => base ++ "jobs/" ++ id ++ "/result?" ++
           ("filter_for=" ++ (rest.getLastD s).value)) := by
  cases ss with
  | nil => exact ⟨rfl, get_result_url_nil base id⟩
  | cons s rest =>
      have h1 : create_filter_params (s :: rest) =
          [("filter_for", (rest.getLastD s).value)] := by
        show List.foldl _ [] (s :: rest) = _
        simp only [List.foldl_cons]
        rw [show dict_set "filter_for" s.value [] = [("filter_for", s.value)]
              from rfl,
            foldl_dict_set_last, getLastD_map_value]
      refine ⟨h1, ?_⟩
      show get_result_url base id (create_filter_params (s :: rest)) = _
      rw [h1]
      rfl

/-- Claim C4: local-file submission of an existing file issues a
multipart POST to `{base_url}jobs` with exactly two parts — `media`
carrying the file's bytes under the caller-supplied filename, and
`options` carrying the payload serialized as JSON text, whose object
keys are always emitted in sorted (alphabetical) order. -/
theorem claim_C4_multipart (fs : String → Option (List Nat))
    (base fname : String) (content : List Nat) (m c : Option String)
    (d : Option Int) (hne : fname ≠ "") (hfs : fs fname = some content) :
    submit_job_local_file fs base (some fname) m c d =
      .ok { method := "POST", url := base ++ "jobs", jsonBody := none,
            files := [⟨"media", some fname, .fileBytes content⟩,
                      ⟨"options", none,
                       .text (jsonDumps (.obj (enhance_payload [] m c d)))⟩] } ∧
    ∀ l : List (String × String),
      List.Sorted (fun a b : String × String => a.1 ≤ b.1) (sortPairs l) := by
  refine ⟨?_, fun l => sorted_sortPairs l⟩
  simp [submit_job_local_file, strFalsy, hne, hfs]

/-- Witness for claim C4 on a one-file file system; evaluating the
serializer shows the sorted key order
`callback_url, delete_after_seconds, metadata`. -/
theorem claim_C4_witness :
    submit_job_local_file (fun s => if s = "a.mp3" then some [1, 2] else none)
        "B/" (some "a.mp3") (some "test") (some "https://example.com/")
        (some 0) =
      .ok { method := "POST", url := "B/" ++ "jobs", jsonBody := none,
            files := [⟨"media", some "a.mp3", .fileBytes [1, 2]⟩,
                      ⟨"options", none,
                       .text (jsonDumps (.obj (enhance_payload []
                         (some "test") (some "https://example.com/")
                         (some 0))))⟩] } ∧
    ∀ l : List (String × String),
      List.Sorted (fun a b : String × String => a.1 ≤ b.1) (sortPairs l) :=
  claim_C4_multipart (fun s => if s = "a.mp3" then some [1, 2] else none)
    "B/" "a.mp3" [1, 2] (some "test") (some "https://example.com/") (some 0)
    (by decide) rfl

/-- Claim C9: deserializing a result JSON with exactly one message
yields a typed result whose single message's `content`, `score`,
`sentiment`, `offset` and `length` equal the input field-for-field,
with the wire sentiment string mapped to the matching enum value
(every enum value's wire string maps back to itself). -/
theorem claim_C9_result_roundtrip (content w : String)
    (score offset length : Int) (s : SentimentValue)
    (hw : sentiment_from_string w = some s) :
    sentimentResult_from_json (.obj [("messages", .arr [.obj
      [("content", .str content), ("score", .num score),
       ("sentiment", .str w), ("offset", .num offset),
       ("length", .num length)]])]) =
      some ⟨[⟨content, score, s, offset, length⟩]⟩ ∧
    ∀ sv : SentimentValue, sentiment_from_string sv.value = some sv := by
  constructor
  · simp [sentimentResult_from_json, sentimentMessage_from_json, jlookup,
      Json.asStr, Json.asNum, hw, List.mapM.loop, Option.bind]
  · intro sv
    cases sv <;> rfl

/-- Witness for claim C9 at the test's message
(`random words`, score 1, sentiment `negative`, offset 0, length 12). -/
theorem claim_C9_witness :
    sentimentResult_from_json (.obj [("messages", .arr [.obj
      [("content", .str "random words"), ("score", .num 1),
       ("sentiment", .str "negative"), ("offset", .num 0),
       ("length", .num 12)]])]) =
      some ⟨[⟨"random words", 1, .negative, 0, 12⟩]⟩ ∧
    ∀ sv : SentimentValue, sentiment_from_string sv.value = some sv :=
  claim_C9_result_roundtrip "random words" "negative" 1 0 12 .negative rfl

end RevAi
